import Mathlib

/-!
Verification development for the cua-computer backend slice of the
openai-cua-sample-app repository: a shallow embedding of
src/computers/contrib/cua.py and src/cli.py, with theorems about the
capability methods, the sync/async bridge and the CLI driver loop.

Modelling conventions:
a Python int is an Int; a Python str is a String; a Python dict used as a
point is an association list keyed by PyKey (a Python dict key is either an
int or a str literal here); a method that schedules asynchronous work is
modelled by the ordered list of backend coroutines it passes to
_run_async (its unit trace); a method whose body can raise is an
Except PyError value; time.sleep calls are synchronous pacing and schedule
nothing, so they do not appear in unit traces.
-/

/-- Python-level errors that the embedded code can raise or that the spec
names. -/
inductive PyError where
  | keyError
  | unsupportedOperation
  | unsupportedKey
deriving DecidableEq, Repr

/-- One backend coroutine handed to the bridge: the operations of
computer.interface that cua.py invokes, plus the VM lifecycle calls. -/
inductive BackendCall where
  | screenshotCall
  | moveCursor (x y : Int)
  | leftClick
  | rightClick
  | scrollCall (amount : Int)
  | typeText (s : String)
  | pressKey (k : String)
  | hotkey (keys : List String)
  | mouseDown
  | mouseUp
deriving DecidableEq, Repr

/-- Python dict keys as they occur in the embedded code: integer keys
(used by drag via path[0], point[0], point[1]) and string keys (the x and
y fields of a point produced by the action layer). -/
inductive PyKey where
  | intK (n : Int)
  | strK (s : String)
deriving DecidableEq, Repr

/-- A point as the adapter receives it: a Python Dict[str, int], modelled
as an association list. -/
abbrev PointDict := List (PyKey × Int)

/-- Subscripting a Python dict: d[k] yields the value when the key is
present and raises KeyError otherwise. -/
def dictGet (d : PointDict) (k : PyKey) : Except PyError Int :=
  match d.lookup k with
  | some v => Except.ok v
  | none => Except.error PyError.keyError

/-- A well-formed drag point, as the sibling adapters and the action layer
produce it: a mapping with string keys x and y. -/
def xyPoint (x y : Int) : PointDict :=
  [(PyKey.strK "x", x), (PyKey.strK "y", y)]

/-- Python str.lower restricted to one character: basic latin uppercase
letters (code points 65 to 90) map to their lowercase forms, everything
else is unchanged. -/
def pyCharLower (c : Char) : Char :=
  if 65 ≤ c.toNat ∧ c.toNat ≤ 90 then Char.ofNat (c.toNat + 32) else c

/-- Python str.lower on a whole string. -/
def pyLower (s : String) : String :=
  String.mk (s.data.map pyCharLower)

/-- Python str.strip with no argument: remove whitespace from both ends of
the string. -/
def pyStrip (s : String) : String :=
  String.mk (((s.data.dropWhile Char.isWhitespace).reverse.dropWhile
    Char.isWhitespace).reverse)

/-- Model of asyncio.get_event_loop with no running loop: it returns the
ambient event loop currently installed for the calling thread, identified
here by a loop id carried by the thread. -/
def asyncio.get_event_loop (threadLoop : Nat) : Nat :=
  threadLoop

/-- The sync-to-async adapter object of cua.py: it stores the wrapped
computer and the event loop captured at construction time. Loops and
computers are identified by ids. -/
structure CuaComputerAdapter where
  computer : Nat
  loop : Nat
deriving DecidableEq, Repr

/-- CuaComputerAdapter.__init__ (cua.py lines 15-17): self.computer is the
argument and self.loop is asyncio.get_event_loop() of the constructing
thread. -/
def CuaComputerAdapter.init (threadLoop : Nat) (computer : Nat) : CuaComputerAdapter :=
  { computer := computer, loop := asyncio.get_event_loop threadLoop }

/-- Unit trace of CuaComputerAdapter.screenshot (cua.py lines 23-26): one
coroutine, interface.screenshot(). -/
def CuaComputerAdapter.screenshotUnits : List BackendCall :=
  [BackendCall.screenshotCall]

/-- Unit trace of CuaComputerAdapter.click (cua.py lines 28-34): move the
cursor, then right_click when button is the string right, else
left_click. -/
def CuaComputerAdapter.clickUnits (x y : Int) (button : String) : List BackendCall :=
  [BackendCall.moveCursor x y,
   if button == "right" then BackendCall.rightClick else BackendCall.leftClick]

/-- Unit trace of CuaComputerAdapter.double_click (cua.py lines 36-41):
move, click, a synchronous 0.1 s sleep that schedules nothing, click. -/
def CuaComputerAdapter.double_clickUnits (x y : Int) : List BackendCall :=
  [BackendCall.moveCursor x y, BackendCall.leftClick, BackendCall.leftClick]

/-- Unit trace of CuaComputerAdapter.scroll (cua.py lines 43-46): move the
cursor, then one interface.scroll call whose sole argument is
scroll_y // 50 (Python floor division); scroll_x is never read. -/
def CuaComputerAdapter.scrollUnits (x y scroll_x scroll_y : Int) : List BackendCall :=
  [BackendCall.moveCursor x y, BackendCall.scrollCall (Int.fdiv scroll_y 50)]

/-- Unit trace of CuaComputerAdapter.type (cua.py lines 48-50). -/
def CuaComputerAdapter.typeUnits (text : String) : List BackendCall :=
  [BackendCall.typeText text]

/-- Unit trace of CuaComputerAdapter.move (cua.py lines 56-58). -/
def CuaComputerAdapter.moveUnits (x y : Int) : List BackendCall :=
  [BackendCall.moveCursor x y]

/-- Translation of one key in the single-key branch of keypress (cua.py
lines 65-72): enter maps to return, space maps to space, anything else is
forwarded verbatim to press_key. -/
def keypressKeyUnit (key : String) : BackendCall :=
  if pyLower key == "enter" then BackendCall.pressKey "return"
  else if pyLower key == "space" then BackendCall.pressKey "space"
  else BackendCall.pressKey key

/-- Unit trace of CuaComputerAdapter.keypress (cua.py lines 60-72): more
than one key yields a single hotkey coroutine over the whole list, with
no per-key translation; otherwise each key (zero or one of them) becomes
one press_key coroutine after the enter and space mapping. -/
def CuaComputerAdapter.keypressUnits (keys : List String) : List BackendCall :=
  if keys.length > 1 then [BackendCall.hotkey keys]
  else keys.map keypressKeyUnit

/-- CuaComputerAdapter.keypress as a fallible call: its body contains no
raise and no key-name validation, every branch only schedules a backend
coroutine, so it always returns normally. -/
def CuaComputerAdapter.keypress (keys : List String) : Except PyError (List BackendCall) :=
  Except.ok (CuaComputerAdapter.keypressUnits keys)

/-- CuaComputerAdapter.get_current_url (cua.py lines 94-98): the body is
the single statement returning the empty string. -/
def CuaComputerAdapter.get_current_url : Except PyError String :=
  Except.ok ""

/-- The per-point moves of the drag loop (cua.py lines 87-89): every point
of path[1:] is subscripted at the integer keys 0 and 1 and becomes a
move_cursor coroutine; the 0.05 s sleep after each move schedules
nothing. -/
def dragMoveUnits : List PointDict → Except PyError (List BackendCall)
  | [] => Except.ok []
  | p :: ps => do
    let x ← dictGet p (PyKey.intK 0)
    let y ← dictGet p (PyKey.intK 1)
    let rest ← dragMoveUnits ps
    Except.ok (BackendCall.moveCursor x y :: rest)

/-- CuaComputerAdapter.drag (cua.py lines 74-92): a path of fewer than two
points returns at once with no backend call; otherwise path[0] is
subscripted at the integer keys 0 and 1 for the initial move, mouse_down
is scheduled, the remaining points are traversed, and mouse_up ends the
trace. Subscripting raises KeyError when the key is absent. -/
def CuaComputerAdapter.drag (path : List PointDict) : Except PyError (List BackendCall) :=
  if path.length < 2 then Except.ok []
  else do
    let start := path.headD []
    let sx ← dictGet start (PyKey.intK 0)
    let sy ← dictGet start (PyKey.intK 1)
    let moves ← dragMoveUnits path.tail
    Except.ok ([BackendCall.moveCursor sx sy, BackendCall.mouseDown] ++ moves
               ++ [BackendCall.mouseUp])

/-- CuaBaseComputer.goto (cua.py lines 180-184): the body types the url
exactly as given and then presses Enter through the adapter; it performs
no scheme prefixing and cannot raise. -/
def CuaBaseComputer.goto (url : String) : Except PyError (List BackendCall) :=
  Except.ok (CuaComputerAdapter.typeUnits url ++ CuaComputerAdapter.keypressUnits ["Enter"])

/-- CuaBaseComputer.get_current_url (cua.py lines 176-177) delegates to the
adapter. -/
def CuaBaseComputer.get_current_url : Except PyError String :=
  CuaComputerAdapter.get_current_url

/-- CuaMacOSComputer.environment (cua.py lines 204-206). -/
def CuaMacOSComputer.environment : String :=
  "mac"

/-- CuaMacOSComputer.back (cua.py lines 208-210): one keypress of the
two-element list Command, Left; its body cannot raise. -/
def CuaMacOSComputer.back : Except PyError (List BackendCall) :=
  Except.ok (CuaComputerAdapter.keypressUnits ["Command", "Left"])

/-- The safety-confirmation callback of src/cli.py lines 12-16: the typed
response is lowercased at the input call, then lowercased again, stripped,
and compared to the string y. -/
def acknowledge_safety_check_callback (response : String) : Bool :=
  pyStrip (pyLower (pyLower response)) == "y"

/-- The claim reading of the callback, for comparison: the response after
one lowercasing and a strip equals the string y. -/
def ackClaimSpec (response : String) : Bool :=
  pyStrip (pyLower response) == "y"

/-- Python str.startswith: the candidate is an initial segment of the
string. -/
def pyStartsWith (s p : String) : Bool :=
  p.data.isPrefixOf s.data

/-- Start-url normalization of src/cli.py lines 107-109, applied to the
browser environments only: a url that does not start with http gets the
https scheme prefixed. -/
def cliStartUrl (u : String) : String :=
  if pyStartsWith u "http" then u else "https://" ++ u

/-- The computer choices for which src/cli.py line 106 issues the start-url
goto at all. -/
def cliStartUrlComputers : List String :=
  ["browserbase", "local-playwright"]

/-- State of one CuaBaseComputer object as far as the session lifecycle is
concerned: self.computer (None until __enter__ assigns it) and the number
of stop calls issued so far. -/
structure CompState where
  computer : Option Nat
  stops : Nat
deriving DecidableEq, Repr

/-- A fresh CuaBaseComputer after __init__ (cua.py line 117): self.computer
is None and nothing has been stopped. -/
def CompState.initial : CompState :=
  { computer := none, stops := 0 }

/-- CuaBaseComputer.__enter__ (cua.py lines 125-141): construct the
CuaComputer, run the VM, build the adapter; the lifecycle effect is that
self.computer becomes set. -/
def CuaBaseComputer.enterSession (s : CompState) : CompState :=
  { s with computer := some 0 }

/-- CuaBaseComputer.__exit__ (cua.py lines 143-146): when self.computer is
truthy, schedule computer.stop() once; otherwise do nothing. -/
def CuaBaseComputer.exitSession (s : CompState) : CompState :=
  if s.computer.isSome then { s with stops := s.stops + 1 } else s

/-- Outcome of one agent.run_full_turn call inside the CLI loop: it either
returns normally or raises. -/
inductive TurnOutcome where
  | ok
  | raises (e : PyError)
deriving DecidableEq, Repr

/-- One event of the interactive loop of src/cli.py lines 110-128: either
the input call yields a line (paired with the outcome of the turn that
would run on it) or it raises EOFError. -/
inductive LoopEvent where
  | inputLine (s : String) (turn : TurnOutcome)
  | inputEOF
deriving DecidableEq, Repr

/-- The while-loop body of src/cli.py main: EOFError breaks, the line exit
breaks, any other line runs a turn whose exception propagates; an
exhausted event list ends the loop normally. -/
def cliLoop : List LoopEvent → Except PyError Unit
  | [] => Except.ok ()
  | LoopEvent.inputEOF :: _ => Except.ok ()
  | LoopEvent.inputLine s t :: rest =>
    if s == "exit" then Except.ok ()
    else
      match t with
      | TurnOutcome.ok => cliLoop rest
      | TurnOutcome.raises e => Except.error e

/-- Python with-statement over a context manager whose __exit__ returns
None: __enter__ runs first, the body runs, and __exit__ runs on the normal
path and on the exception path alike, re-raising the exception of the
body. -/
def pyWith (enterF exitF : CompState → CompState) (body : Except PyError Unit)
    (s : CompState) : CompState × Except PyError Unit :=
  let s1 := enterF s
  match body with
  | Except.ok a => (exitF s1, Except.ok a)
  | Except.error e => (exitF s1, Except.error e)

/-- The session-relevant shape of src/cli.py main lines 99-128: the with
statement over the computer wraps the interactive loop. -/
def cliMain (events : List LoopEvent) : CompState × Except PyError Unit :=
  pyWith CuaBaseComputer.enterSession CuaBaseComputer.exitSession
    (cliLoop events) CompState.initial

/-! Helper lemmas about the character-level lower mapping. -/

theorem char_toNat_ofNat_valid (n : Nat) (h : n.isValidChar) :
    (Char.ofNat n).toNat = n := by
  simp [Char.ofNat, h, Char.ofNatAux, Char.toNat, UInt32.toNat, BitVec.toNat_ofNatLt]

theorem pyCharLower_not_upper (d : Char) :
    ¬ (65 ≤ (pyCharLower d).toNat ∧ (pyCharLower d).toNat ≤ 90) := by
  unfold pyCharLower
  by_cases h : 65 ≤ d.toNat ∧ d.toNat ≤ 90
  · rw [if_pos h]
    have hv : Nat.isValidChar (d.toNat + 32) := Or.inl (by omega)
    rw [char_toNat_ofNat_valid _ hv]
    omega
  · rw [if_neg h]
    exact h

theorem pyCharLower_idem (c : Char) :
    pyCharLower (pyCharLower c) = pyCharLower c := by
  nth_rewrite 1 [pyCharLower]
  rw [if_neg (pyCharLower_not_upper c)]

theorem map_pyCharLower_idem (l : List Char) :
    (l.map pyCharLower).map pyCharLower = l.map pyCharLower := by
  induction l with
  | nil => rfl
  | cons c cs ih => simp [pyCharLower_idem, ih]

theorem pyLower_idem (s : String) : pyLower (pyLower s) = pyLower s := by
  show String.mk ((s.data.map pyCharLower).map pyCharLower)
      = String.mk (s.data.map pyCharLower)
  rw [map_pyCharLower_idem]

/-! Theorems settling the claims. -/

/-- C1, counterexample: the claim fails on the code. Two distinct adapter
instances constructed on the same thread are bound to one and the same
scheduler, namely the ambient event loop of that thread returned by
asyncio.get_event_loop. -/
theorem c1_counterexample :
    CuaComputerAdapter.init 0 1 ≠ CuaComputerAdapter.init 0 2 ∧
    (CuaComputerAdapter.init 0 1).loop = (CuaComputerAdapter.init 0 2).loop ∧
    (CuaComputerAdapter.init 0 1).loop = asyncio.get_event_loop 0 :=
  ⟨by decide, rfl, rfl⟩

/-- C1, amended: each adapter binds, at construction, the ambient event
loop of the constructing thread as returned by asyncio.get_event_loop, so
all adapters created on one thread share that single scheduler rather
than owning private ones. -/
theorem c1_ambient_loop (t c1 c2 : Nat) :
    (CuaComputerAdapter.init t c1).loop = asyncio.get_event_loop t ∧
    (CuaComputerAdapter.init t c1).loop = (CuaComputerAdapter.init t c2).loop :=
  ⟨rfl, rfl⟩

/-- C2, counterexample: the claim fails on the code. One click invocation
schedules two units of async work (a cursor move and a click), not exactly
one. -/
theorem c2_counterexample :
    (CuaComputerAdapter.clickUnits 0 0 "left").length = 2 ∧
    (CuaComputerAdapter.clickUnits 0 0 "left").length ≠ 1 :=
  ⟨rfl, by decide⟩

/-- C2, amended: each capability invocation schedules a fixed finite
sequence of units of async work on the session scheduler, run one at a
time to completion in order while the caller blocks: screenshot, type,
move and any non-empty keypress schedule exactly one unit, click and
scroll schedule exactly two, and double_click schedules three. -/
theorem c2_unit_counts (x y sx sy : Int) (b t : String) (ks : List String)
    (hks : 0 < ks.length) :
    CuaComputerAdapter.screenshotUnits.length = 1 ∧
    (CuaComputerAdapter.typeUnits t).length = 1 ∧
    (CuaComputerAdapter.moveUnits x y).length = 1 ∧
    (CuaComputerAdapter.clickUnits x y b).length = 2 ∧
    (CuaComputerAdapter.double_clickUnits x y).length = 3 ∧
    (CuaComputerAdapter.scrollUnits x y sx sy).length = 2 ∧
    (CuaComputerAdapter.keypressUnits ks).length = 1 := by
  refine ⟨rfl, rfl, rfl, rfl, rfl, rfl, ?_⟩
  unfold CuaComputerAdapter.keypressUnits
  by_cases h : ks.length > 1
  · rw [if_pos h]
    rfl
  · rw [if_neg h, List.length_map]
    omega

/-- C2, witness for the amended theorem at a concrete input. -/
theorem c2_unit_counts_witness :
    0 < (["a"] : List String).length ∧
    (CuaComputerAdapter.keypressUnits ["a"]).length = 1 :=
  ⟨by decide, (c2_unit_counts 0 0 0 0 "left" "t" ["a"] (by decide)).2.2.2.2.2.2⟩

/-- C3: evaluation of drag at the failing input. A drag path of two
well-formed x-y points raises KeyError, because the code subscripts each
point at the integer keys 0 and 1 while the points carry the string keys
x and y; the paths of length zero and one are indeed silent no-ops. -/
theorem c3_drag_keyerror :
    CuaComputerAdapter.drag [] = Except.ok [] ∧
    CuaComputerAdapter.drag [xyPoint 0 0] = Except.ok [] ∧
    CuaComputerAdapter.drag [xyPoint 0 0, xyPoint 100 100]
      = Except.error PyError.keyError :=
  ⟨rfl, rfl, rfl⟩

/-- C4, counterexample: the claim fails on the code. On the macOS adapter
none of goto, back and get_current_url fails with UnsupportedOperation:
get_current_url returns the empty string normally, goto and back return
normally after scheduling their keyboard emulation. -/
theorem c4_counterexample :
    CuaMacOSComputer.environment = "mac" ∧
    CuaBaseComputer.get_current_url = Except.ok "" ∧
    CuaBaseComputer.get_current_url ≠ Except.error PyError.unsupportedOperation ∧
    CuaBaseComputer.goto "example.com" ≠ Except.error PyError.unsupportedOperation ∧
    CuaMacOSComputer.back ≠ Except.error PyError.unsupportedOperation :=
  ⟨rfl, rfl, fun h => Except.noConfusion h, fun h => Except.noConfusion h,
   fun h => Except.noConfusion h⟩

/-- C4, amended: on the macOS adapter (environment mac) goto types the url
verbatim and presses return, back issues a Command-Left hotkey chord, and
get_current_url returns the empty string; all three return normally
instead of failing with UnsupportedOperation. -/
theorem c4_mac_browser_methods (url : String) :
    CuaMacOSComputer.environment = "mac" ∧
    CuaBaseComputer.goto url
      = Except.ok [BackendCall.typeText url, BackendCall.pressKey "return"] ∧
    CuaMacOSComputer.back = Except.ok [BackendCall.hotkey ["Command", "Left"]] ∧
    CuaBaseComputer.get_current_url = Except.ok "" :=
  ⟨rfl, rfl, rfl, rfl⟩

/-- C5, counterexample: the claim fails on the code. For the scheme-less
url example.com, goto sends the url to the backend verbatim; the
scheme-qualified form never appears in the scheduled work. -/
theorem c5_counterexample :
    CuaBaseComputer.goto "example.com"
      = Except.ok [BackendCall.typeText "example.com", BackendCall.pressKey "return"] ∧
    BackendCall.typeText "https://example.com"
      ∉ [BackendCall.typeText "example.com", BackendCall.pressKey "return"] :=
  ⟨rfl, by decide⟩

/-- C5, amended: goto performs no scheme prefixing and the backend receives
the url exactly as the caller passed it; the https prefix is applied only
by the CLI driver to the start url of the browser environments, and only
when that url does not already start with http. -/
theorem c5_goto_verbatim (u v : String) (hu : ¬ pyStartsWith u "http" = true)
    (hv : pyStartsWith v "http" = true) :
    CuaBaseComputer.goto u
      = Except.ok [BackendCall.typeText u, BackendCall.pressKey "return"] ∧
    cliStartUrl u = "https://" ++ u ∧
    cliStartUrl v = v := by
  refine ⟨rfl, ?_, ?_⟩
  · unfold cliStartUrl
    rw [if_neg hu]
  · unfold cliStartUrl
    rw [if_pos hv]

/-- C5, witness for the amended theorem at concrete urls. -/
theorem c5_goto_verbatim_witness :
    ¬ pyStartsWith "example.com" "http" = true ∧
    pyStartsWith "https://bing.com" "http" = true ∧
    (CuaBaseComputer.goto "example.com"
      = Except.ok [BackendCall.typeText "example.com", BackendCall.pressKey "return"] ∧
     cliStartUrl "example.com" = "https://" ++ "example.com" ∧
     cliStartUrl "https://bing.com" = "https://bing.com") :=
  ⟨by decide, by decide,
   c5_goto_verbatim "example.com" "https://bing.com" (by decide) (by decide)⟩

/-- C6, counterexample: the claim fails on the code. The adapter performs
no key-name validation: an unknown key name is forwarded verbatim to the
backend and the call returns normally rather than failing with
UnsupportedKey. -/
theorem c6_counterexample :
    CuaComputerAdapter.keypress ["Fnord"] = Except.ok [BackendCall.pressKey "Fnord"] ∧
    CuaComputerAdapter.keypress ["Fnord"] ≠ Except.error PyError.unsupportedKey :=
  ⟨rfl, fun h => Except.noConfusion h⟩

/-- C6, amended: a keypress of more than one key issues the whole list as
one simultaneous hotkey chord, and a single key becomes one press-and-
release; the adapter validates no key name, so an unknown name is
forwarded verbatim instead of failing with UnsupportedKey. -/
theorem c6_keypress_chord (ks : List String) (k : String)
    (hks : ks.length > 1) (h1 : pyLower k ≠ "enter") (h2 : pyLower k ≠ "space") :
    CuaComputerAdapter.keypress ks = Except.ok [BackendCall.hotkey ks] ∧
    CuaComputerAdapter.keypress [k] = Except.ok [BackendCall.pressKey k] := by
  constructor
  · unfold CuaComputerAdapter.keypress CuaComputerAdapter.keypressUnits
    rw [if_pos hks]
  · have e1 : (pyLower k == "enter") = false := beq_eq_false_iff_ne.mpr h1
    have e2 : (pyLower k == "space") = false := beq_eq_false_iff_ne.mpr h2
    simp [CuaComputerAdapter.keypress, CuaComputerAdapter.keypressUnits,
      keypressKeyUnit, e1, e2]

/-- C6, witness for the amended theorem at a concrete chord and a concrete
unknown key. -/
theorem c6_keypress_chord_witness :
    (["Command", "Left"] : List String).length > 1 ∧
    pyLower "Fnord2" ≠ "enter" ∧ pyLower "Fnord2" ≠ "space" ∧
    (CuaComputerAdapter.keypress ["Command", "Left"]
      = Except.ok [BackendCall.hotkey ["Command", "Left"]] ∧
     CuaComputerAdapter.keypress ["Fnord2"]
      = Except.ok [BackendCall.pressKey "Fnord2"]) :=
  ⟨by decide, by decide, by decide,
   c6_keypress_chord ["Command", "Left"] "Fnord2" (by decide) (by decide) (by decide)⟩

/-- C7: on every exit path of the CLI driving loop (normal completion of
the event stream, the exit line, end-of-input, or an exception raised by a
turn) the session started by the with statement is stopped exactly once
before control leaves the scoped block. -/
theorem c7_session_stopped_once (events : List LoopEvent) :
    (cliMain events).1.stops = 1 ∧ (cliMain events).1.computer.isSome = true := by
  unfold cliMain pyWith
  cases h : cliLoop events <;>
    simp [CuaBaseComputer.enterSession, CuaBaseComputer.exitSession, CompState.initial]

/-- C8, counterexample: the claim fails on the code. Two scroll calls that
differ only in scroll_x schedule identical backend work, so the horizontal
component of the delta is not applied; with scroll_y zero the backend
scroll amount is zero regardless of scroll_x. -/
theorem c8_counterexample :
    CuaComputerAdapter.scrollUnits 0 0 100 0 = CuaComputerAdapter.scrollUnits 0 0 7 0 ∧
    CuaComputerAdapter.scrollUnits 0 0 100 0
      = [BackendCall.moveCursor 0 0, BackendCall.scrollCall 0] :=
  ⟨rfl, rfl⟩

/-- C8, amended: scroll first positions the pointer at the given point and
then issues one backend scroll whose amount is the floor division of
scroll_y by fifty; the scroll_x component is ignored, so the scheduled
work is invariant under changes of scroll_x. -/
theorem c8_scroll_drops_x (x y sx sx2 sy : Int) :
    CuaComputerAdapter.scrollUnits x y sx sy
      = [BackendCall.moveCursor x y, BackendCall.scrollCall (Int.fdiv sy 50)] ∧
    CuaComputerAdapter.scrollUnits x y sx sy
      = CuaComputerAdapter.scrollUnits x y sx2 sy :=
  ⟨rfl, rfl⟩

/-- C9: the safety-confirmation callback returns true exactly when the
typed response, lowercased and stripped of surrounding whitespace, equals
the single letter y; the double lowercasing in the code collapses to one,
so the code agrees with the claim reading on every response. -/
theorem c9_callback_iff (r : String) :
    acknowledge_safety_check_callback r = ackClaimSpec r := by
  unfold acknowledge_safety_check_callback ackClaimSpec
  rw [pyLower_idem]

/-- C10: a keypress of the empty list schedules nothing and returns
normally; in the single-key case a key whose lowercased name is enter is
translated to return before the press; and a multi-key chord is forwarded
verbatim with no such translation. -/
theorem c10_keypress_empty_enter (k : String) (ks : List String)
    (hk : pyLower k = "enter") (hks : ks.length > 1) :
    CuaComputerAdapter.keypressUnits [] = [] ∧
    CuaComputerAdapter.keypressUnits [k] = [BackendCall.pressKey "return"] ∧
    CuaComputerAdapter.keypressUnits ks = [BackendCall.hotkey ks] := by
  refine ⟨rfl, ?_, ?_⟩
  · have e1 : (pyLower k == "enter") = true := beq_iff_eq.mpr hk
    simp [CuaComputerAdapter.keypressUnits, keypressKeyUnit, e1]
  · unfold CuaComputerAdapter.keypressUnits
    rw [if_pos hks]

/-- C10, witness at the concrete key Enter and the concrete chord
containing Enter, showing the chord is forwarded untranslated. -/
theorem c10_keypress_witness :
    pyLower "Enter" = "enter" ∧ (["Enter", "Left"] : List String).length > 1 ∧
    (CuaComputerAdapter.keypressUnits [] = [] ∧
     CuaComputerAdapter.keypressUnits ["Enter"] = [BackendCall.pressKey "return"] ∧
     CuaComputerAdapter.keypressUnits ["Enter", "Left"]
      = [BackendCall.hotkey ["Enter", "Left"]]) :=
  ⟨by decide, by decide,
   c10_keypress_empty_enter "Enter" ["Enter", "Left"] (by decide) (by decide)⟩
